import Mathlib

/-!
Shallow embedding of the course-cipher pages (src/src/pages/Dashboard.tsx,
which contains both the Dashboard component and the Course detail component,
and src/src/pages/Index.tsx). Backend calls are modelled by passing their
responses as explicit arguments; state updates are explicit state passing;
toasts, navigations and issued requests are recorded as a list of actions.
-/

namespace CourseCipher

/-- Course row as fetched by the dashboard (interface Course in Dashboard). -/
structure Course where
  id : String
  title : String
  description : String
  thumbnail_url : String
  vimeo_url : String
deriving DecidableEq, Repr

/-- Enrollment row: course_id plus a progress integer. -/
structure Enrollment where
  course_id : String
  progress : Int
deriving DecidableEq, Repr

/-- Backend error object; only the message field is used by the pages. -/
structure Err where
  message : String
deriving DecidableEq, Repr

/-- A supabase response: possibly-null data plus possibly-null error. -/
structure Resp (α : Type) where
  data : Option α
  error : Option Err
deriving DecidableEq, Repr

/-- An authenticated session; the pages only read session.user.id. -/
structure Session where
  userId : String
deriving DecidableEq, Repr

/-- Observable side effects of the page code: toasts, navigations, and the
read/write requests issued to the backend. -/
inductive Action where
  | toast (title description : String) : Action
  | navigate (route : String) : Action
  | fetchRequest (table : String) : Action
  | writeRequest (table : String) (progressValue : Int) : Action
deriving DecidableEq, Repr

/-- View state of the Dashboard component (courses, enrollments, loading). -/
structure DashboardState where
  courses : List Course
  enrollments : List Enrollment
  loading : Bool
deriving DecidableEq, Repr

/-- The fetchData handler of the Dashboard: given the two responses of the
Promise.all batch and the prior state, returns the new state and the actions.
If either response carries an error it is thrown, caught, and surfaced as a
toast with the backend message; the setCourses/setEnrollments updates are
skipped; the finally block clears the loading flag in every branch. -/
def fetchData (coursesResponse : Resp (List Course))
    (enrollmentsResponse : Resp (List Enrollment))
    (s : DashboardState) : DashboardState × List Action :=
  match coursesResponse.error with
  | some e => ({ s with loading := false }, [Action.toast "Error" e.message])
  | none =>
    match enrollmentsResponse.error with
    | some e => ({ s with loading := false }, [Action.toast "Error" e.message])
    | none =>
      ({ courses := coursesResponse.data.getD []
         enrollments := enrollmentsResponse.data.getD []
         loading := false }, [])

/-- The requests that fetchData always issues (the Promise.all pair). -/
def fetchDataRequests : List Action :=
  [Action.fetchRequest "courses", Action.fetchRequest "enrollments"]

/-- The checkUser handler of the Dashboard: navigate to /auth when there is
no session, otherwise do nothing. -/
def checkUser (session : Option Session) : List Action :=
  match session with
  | none => [Action.navigate "/auth"]
  | some _ => []

/-- The Dashboard mount effect: useEffect calls checkUser() and then
fetchData() unconditionally, so the fetch requests are issued and the fetch
state updates happen regardless of the session check's outcome. -/
def dashboardMount (session : Option Session)
    (coursesResponse : Resp (List Course))
    (enrollmentsResponse : Resp (List Enrollment))
    (s : DashboardState) : DashboardState × List Action :=
  let r := fetchData coursesResponse enrollmentsResponse s
  (r.1, checkUser session ++ (fetchDataRequests ++ r.2))

/-- isEnrolled from the Dashboard: enrollments.some(e => e.course_id === courseId). -/
def isEnrolled (enrollments : List Enrollment) (courseId : String) : Bool :=
  enrollments.any (fun e => e.course_id == courseId)

/-- getProgress from the Dashboard: the progress of the first enrollment row
whose course_id matches, else 0 (enrollment?.progress || 0; for integer
progress the JS falsy-0 coercion coincides with this). -/
def getProgress (enrollments : List Enrollment) (courseId : String) : Int :=
  match enrollments.find? (fun e => e.course_id == courseId) with
  | some enrollment => enrollment.progress
  | none => 0

/-- Course row as fetched by the Course detail page (its own interface
Course: nullable description, no thumbnail). -/
structure CourseDetail where
  id : String
  title : String
  description : Option String
  vimeo_url : String
deriving DecidableEq, Repr

/-- View state of the Course detail component. -/
structure CourseState where
  course : Option CourseDetail
  progress : Int
  loading : Bool
deriving DecidableEq, Repr

/-- The fetchCourse handler of the Course detail page. The course query's
response and the enrollment query's response (projected to the progress
field of the at-most-one row) are passed in. An error on either query is
thrown, caught, and surfaced as a toast with the backend message followed by
navigation to /dashboard; a null course row yields the "Course not found"
toast and the same navigation; otherwise the course is stored and progress
becomes enrollmentData?.progress || 0. The finally block clears loading. -/
def fetchCourse (courseResp : Resp CourseDetail) (enrollResp : Resp Int)
    (s : CourseState) : CourseState × List Action :=
  match courseResp.error with
  | some e =>
    ({ s with loading := false },
     [Action.toast "Error" e.message, Action.navigate "/dashboard"])
  | none =>
    match courseResp.data with
    | none =>
      ({ s with loading := false },
       [Action.toast "Error" "Course not found", Action.navigate "/dashboard"])
    | some courseData =>
      match enrollResp.error with
      | some e =>
        ({ s with loading := false },
         [Action.toast "Error" e.message, Action.navigate "/dashboard"])
      | none =>
        ({ course := some courseData
           progress := enrollResp.data.getD 0
           loading := false }, [])

/-- The updateProgress handler of the Course detail page: with no session it
only toasts; otherwise it issues the enrollments update write, and on a
backend error toasts the message leaving state unchanged, while on success
it sets the local progress to the written value and toasts a confirmation.
No refetch is performed in any branch. -/
def updateProgress (session : Option Session) (updateError : Option Err)
    (newProgress : Int) (s : CourseState) : CourseState × List Action :=
  match session with
  | none =>
    (s, [Action.toast "Error" "You must be logged in to update progress"])
  | some _ =>
    match updateError with
    | some e =>
      (s, [Action.writeRequest "enrollments" newProgress,
           Action.toast "Error" e.message])
    | none =>
      ({ s with progress := newProgress },
       [Action.writeRequest "enrollments" newProgress,
        Action.toast "Success" "Progress updated successfully"])

/-- The value the Mark Progress button passes to updateProgress:
Math.min(progress + 10, 100). -/
def bumpTarget (progress : Int) : Int :=
  min (progress + 10) 100

/-- The Mark Progress button's onClick: updateProgress(Math.min(progress + 10, 100)). -/
def markProgressClick (session : Option Session) (updateError : Option Err)
    (s : CourseState) : CourseState × List Action :=
  updateProgress session updateError (bumpTarget s.progress) s

/-- C1 counterexample: the dashboard's fetched Course rows carry no section
list (the Course interface has only id, title, description, thumbnail_url,
vimeo_url, and fetchData queries only the courses and enrollments tables),
so under the claim every displayed progress would fall in the "empty or
absent section list" case and equal 0; but with an enrollment row of stored
progress 50 the displayed value getProgress is 50, not 0. -/
theorem c1_counterexample :
    getProgress [⟨"c1", 50⟩] "c1" = 50 ∧ getProgress [⟨"c1", 50⟩] "c1" ≠ 0 := by
  decide

/-- C1 (amended): on the dashboard the displayed progress for a course is
not computed from sections; it equals 0 when no fetched enrollment row has
that course identifier, and otherwise equals the stored progress of the
first matching enrollment row. -/
theorem c1_progress_is_stored_scalar (es : List Enrollment) (c : String) :
    ((∀ e ∈ es, e.course_id ≠ c) → getProgress es c = 0) ∧
    (∀ e, es.find? (fun x => x.course_id == c) = some e →
      getProgress es c = e.progress) := by
  constructor
  · intro h
    have hnone : es.find? (fun x => x.course_id == c) = none := by
      rw [List.find?_eq_none]
      intro x hx
      simpa using h x hx
    simp [getProgress, hnone]
  · intro e he
    simp [getProgress, he]

/-- C1 witness: the amended statement evaluated at concrete inputs. -/
theorem c1_witness :
    getProgress [] "c1" = 0 ∧ getProgress [⟨"c2", 7⟩] "c2" = 7 :=
  ⟨(c1_progress_is_stored_scalar [] "c1").1 (by simp),
   (c1_progress_is_stored_scalar [⟨"c2", 7⟩] "c2").2 ⟨"c2", 7⟩ (by decide)⟩

/-- C2: the value written by the Mark Progress button is min(progress+10,100),
which never exceeds 100; on a successful write the displayed local progress
is that same capped value, so it never exceeds 100 either; in particular a
start of 95 yields 100, not 105. -/
theorem c2_update_progress_never_above_100 :
    (∀ p : Int, bumpTarget p ≤ 100) ∧
    (∀ (sess : Session) (s : CourseState),
      (markProgressClick (some sess) none s).1.progress ≤ 100 ∧
      (markProgressClick (some sess) none s).2 =
        [Action.writeRequest "enrollments" (bumpTarget s.progress),
         Action.toast "Success" "Progress updated successfully"]) ∧
    bumpTarget 95 = 100 := by
  refine ⟨fun p => min_le_right _ _, fun sess s => ?_, by decide⟩
  constructor
  · exact min_le_right (s.progress + 10) 100
  · rfl

/-- C3: when the course query of the detail page returns no row and no
error, fetchCourse emits the "Course not found" toast followed by
navigation to /dashboard, and clears the loading flag. -/
theorem c3_course_not_found (courseResp : Resp CourseDetail)
    (enrollResp : Resp Int) (s : CourseState)
    (herr : courseResp.error = none) (hdata : courseResp.data = none) :
    (fetchCourse courseResp enrollResp s).2 =
      [Action.toast "Error" "Course not found", Action.navigate "/dashboard"] ∧
    (fetchCourse courseResp enrollResp s).1.loading = false := by
  obtain ⟨d, e⟩ := courseResp
  simp only at herr hdata
  subst herr hdata
  simp [fetchCourse]

/-- C3 witness: the theorem at a concrete empty response. -/
theorem c3_witness :
    (fetchCourse ⟨none, none⟩ ⟨none, none⟩ ⟨none, 0, true⟩).2 =
      [Action.toast "Error" "Course not found", Action.navigate "/dashboard"] ∧
    (fetchCourse ⟨none, none⟩ ⟨none, none⟩ ⟨none, 0, true⟩).1.loading = false :=
  c3_course_not_found ⟨none, none⟩ ⟨none, none⟩ ⟨none, 0, true⟩ rfl rfl

/-- C4: if either of the two parallel dashboard requests fails, fetchData
leaves both the courses state and the enrollments state unchanged and emits
exactly one error toast; the loading flag is cleared in every case,
failure or success. -/
theorem c4_fetch_failure_atomic (coursesResponse : Resp (List Course))
    (enrollmentsResponse : Resp (List Enrollment)) (s : DashboardState) :
    ((coursesResponse.error.isSome = true ∨
        enrollmentsResponse.error.isSome = true) →
      (fetchData coursesResponse enrollmentsResponse s).1.courses = s.courses ∧
      (fetchData coursesResponse enrollmentsResponse s).1.enrollments
        = s.enrollments ∧
      ∃ m, (fetchData coursesResponse enrollmentsResponse s).2
        = [Action.toast "Error" m]) ∧
    (fetchData coursesResponse enrollmentsResponse s).1.loading = false := by
  obtain ⟨cd, ce⟩ := coursesResponse
  obtain ⟨ed, ee⟩ := enrollmentsResponse
  cases ce <;> cases ee <;> simp [fetchData]

/-- C4 witness: courses succeed but enrollments fail; both state lists stay
at their initial empty value and the error toast is emitted. -/
theorem c4_witness :
    (fetchData ⟨some [], none⟩ ⟨none, some ⟨"boom"⟩⟩ ⟨[], [], true⟩).1.courses
      = [] ∧
    (fetchData ⟨some [], none⟩ ⟨none, some ⟨"boom"⟩⟩ ⟨[], [], true⟩).1.enrollments
      = [] ∧
    ∃ m, (fetchData ⟨some [], none⟩ ⟨none, some ⟨"boom"⟩⟩ ⟨[], [], true⟩).2
      = [Action.toast "Error" m] :=
  (c4_fetch_failure_atomic ⟨some [], none⟩ ⟨none, some ⟨"boom"⟩⟩
    ⟨[], [], true⟩).1 (Or.inr rfl)

/-- C5 counterexample: mounting the dashboard with no session does navigate
to /auth, but the data fetch still runs: its two requests are issued and its
state effects occur (the loading flag ends up cleared), because useEffect
invokes fetchData() unconditionally right after checkUser(). -/
theorem c5_counterexample :
    Action.navigate "/auth"
      ∈ (dashboardMount none ⟨some [], none⟩ ⟨some [], none⟩ ⟨[], [], true⟩).2 ∧
    Action.fetchRequest "courses"
      ∈ (dashboardMount none ⟨some [], none⟩ ⟨some [], none⟩ ⟨[], [], true⟩).2 ∧
    Action.fetchRequest "enrollments"
      ∈ (dashboardMount none ⟨some [], none⟩ ⟨some [], none⟩ ⟨[], [], true⟩).2 ∧
    (dashboardMount none ⟨some [], none⟩ ⟨some [], none⟩
      ⟨[], [], true⟩).1.loading = false := by
  decide

/-- C5 (amended): a user with no session is redirected to the auth route,
but the data fetch is not skipped: both fetch requests are issued and the
resulting state is exactly what fetchData computes, for every pair of
responses and every prior state. -/
theorem c5_redirect_but_fetch_still_runs (coursesResponse : Resp (List Course))
    (enrollmentsResponse : Resp (List Enrollment)) (s : DashboardState) :
    Action.navigate "/auth"
      ∈ (dashboardMount none coursesResponse enrollmentsResponse s).2 ∧
    Action.fetchRequest "courses"
      ∈ (dashboardMount none coursesResponse enrollmentsResponse s).2 ∧
    Action.fetchRequest "enrollments"
      ∈ (dashboardMount none coursesResponse enrollmentsResponse s).2 ∧
    (dashboardMount none coursesResponse enrollmentsResponse s).1
      = (fetchData coursesResponse enrollmentsResponse s).1 := by
  simp [dashboardMount, checkUser, fetchDataRequests]

/-- C6: isEnrolled returns true exactly when some fetched enrollment row has
the given course identifier, for every enrollment set including the empty one. -/
theorem c6_is_enrolled_iff (es : List Enrollment) (c : String) :
    isEnrolled es c = true ↔ ∃ e ∈ es, e.course_id = c := by
  simp [isEnrolled, List.any_eq_true]

/-- C8: a successful updateProgress changes only the local progress field
(course and loading are untouched), performs no refetch (its actions are
exactly the single write and the success toast), while a backend error
leaves the state entirely unchanged and emits the error toast. -/
theorem c8_update_progress_frame (sess : Session) (newProgress : Int)
    (s : CourseState) :
    ((updateProgress (some sess) none newProgress s).1
        = { s with progress := newProgress } ∧
      (updateProgress (some sess) none newProgress s).2
        = [Action.writeRequest "enrollments" newProgress,
           Action.toast "Success" "Progress updated successfully"]) ∧
    (∀ e : Err,
      (updateProgress (some sess) (some e) newProgress s).1 = s ∧
      (updateProgress (some sess) (some e) newProgress s).2
        = [Action.writeRequest "enrollments" newProgress,
           Action.toast "Error" e.message]) := by
  exact ⟨⟨rfl, rfl⟩, fun e => ⟨rfl, rfl⟩⟩

/-- C9: on the course-detail page, when the course is found and the
enrollment query returns no row (and no error), the displayed progress
defaults to 0 and the course is stored. -/
theorem c9_no_enrollment_defaults_zero (c : CourseDetail) (s : CourseState) :
    (fetchCourse ⟨some c, none⟩ ⟨none, none⟩ s).1.progress = 0 ∧
    (fetchCourse ⟨some c, none⟩ ⟨none, none⟩ s).1.course = some c := by
  simp [fetchCourse]

/-- C10: the bump target min(p+10,100) is at least p whenever 0 ≤ p ≤ 100,
but for any out-of-range stored p > 100 the bump writes exactly 100, which
is strictly below p. -/
theorem c10_bump_monotone_only_in_range (p : Int) :
    (0 ≤ p → p ≤ 100 → p ≤ bumpTarget p) ∧
    (100 < p → bumpTarget p = 100 ∧ bumpTarget p < p) := by
  unfold bumpTarget
  constructor
  · intro h0 h100
    rw [le_min_iff]
    omega
  · intro h
    have h1 : min (p + 10) 100 = 100 := min_eq_right (by omega)
    exact ⟨h1, by omega⟩

/-- C10 witness: in-range 95 is not decreased; out-of-range 105 is clamped
to 100, strictly below 105. -/
theorem c10_witness :
    ((95 : Int) ≤ bumpTarget 95) ∧
      (bumpTarget 105 = 100 ∧ bumpTarget 105 < 105) :=
  ⟨(c10_bump_monotone_only_in_range 95).1 (by decide) (by decide),
   (c10_bump_monotone_only_in_range 105).2 (by decide)⟩

end CourseCipher
